import Mathlib

/-!
Verification of the SignalR server core: frame reader, JSON hub protocol
codec, hub connection state machine, and the client-streaming multiplexer
(streamClient). Definitions are shallow embeddings of the Go source
(jsonhubprotocol.go, hubconnection.go, streamclient.go); JSON values are
modelled symbolically (the textual serialization is done by Go's
encoding/json library, outside this repository).
-/

namespace SignalR

/-- Symbolic model of a JSON value, standing both for a wire frame's parsed
content and for the dynamic Go values produced by encoding/json when it
unmarshals into an untyped field (numbers become float64, here ℚ;
arrays become slices; objects become maps). -/
inductive Json where
  | null : Json
  | bool (b : Bool) : Json
  | num (q : ℚ) : Json
  | str (s : String) : Json
  | arr (elems : List Json) : Json
  | obj (fields : List (String × Json)) : Json

/-- Field lookup in a JSON object's field list (encoding/json key lookup). -/
def lookupField : List (String × Json) → String → Option Json
  | [], _ => none
  | (k, v) :: rest, key => if k = key then some v else lookupField rest key

/-- A JSON number unmarshals into a Go int field only when it is integral. -/
def ratToInt (q : ℚ) : Option Int :=
  if q.den = 1 then some q.num else none

/-- Unmarshalling of an int-typed struct field: absent gives the zero value,
an integral number gives its value, anything else is an unmarshal error. -/
def decodeIntField : Option Json → Option Int
  | none => some 0
  | some (.num q) => ratToInt q
  | some _ => none

/-- Unmarshalling of a string-typed struct field: absent gives the zero
value, a JSON string gives its content, anything else is an error. -/
def decodeStrField : Option Json → Option String
  | none => some ""
  | some (.str s) => some s
  | some _ => none

/-- Unmarshalling of a bool-typed struct field. -/
def decodeBoolField : Option Json → Option Bool
  | none => some false
  | some (.bool b) => some b
  | some _ => none

/-- Unmarshalling of a JSON array whose elements must all be strings. -/
def decodeStrList : List Json → Option (List String)
  | [] => some []
  | .str s :: rest => (decodeStrList rest).map (s :: ·)
  | _ :: _ => none

/-- Unmarshalling of a []string field (StreamIds): absent gives nil. -/
def decodeStrListField : Option Json → Option (List String)
  | none => some []
  | some (.arr js) => decodeStrList js
  | some _ => none

/-- Unmarshalling of a []json.RawMessage field (Arguments): the elements are
kept raw (undecoded payloads); absent gives nil. -/
def decodeArgsField : Option Json → Option (List Json)
  | none => some []
  | some (.arr js) => some js
  | some _ => none

/-- Unmarshalling of an interface\x7b\x7d field (StreamItem.Item): any JSON
value is accepted; absent leaves the nil interface. -/
def decodeItemField : Option Json → Json
  | none => .null
  | some j => j

/-- hubMessage: the minimal envelope carrying only the integer type tag.
Modelled from the spec: the struct declaration itself is in a repository
file not under src/, but its single field is fixed by ParseMessage's use
and the spec's §4.2 envelope description. -/
structure hubMessage where
  type : Int
deriving DecidableEq

/-- invocationMessage as built by ParseMessage from jsonInvocationMessage
(jsonhubprotocol.go): Arguments stay raw json.RawMessage payloads. -/
structure invocationMessage where
  type : Int
  Target : String
  InvocationID : String
  Arguments : List Json
  StreamIds : List String

/-- streamItemMessage: one stream item addressed to an invocation id.
Modelled from the spec (§3, §6): struct declaration not under src/. -/
structure streamItemMessage where
  type : Int
  InvocationID : String
  Item : Json

/-- completionMessage: terminal response to an invocation. Result is an
optional payload; Error is a string whose zero value means no error.
Modelled from the spec (§3, §6) and the uses in hubconnection.go and
invocation_test.go. -/
structure completionMessage where
  type : Int
  InvocationID : String
  Result : Option Json
  Error : String

/-- cancelInvocationMessage. Modelled from the spec (§3, §6). -/
structure cancelInvocationMessage where
  type : Int
  InvocationID : String
deriving DecidableEq

/-- closeMessage, as built by defaultHubConnection.Close. -/
structure closeMessage where
  type : Int
  Error : String
  AllowReconnect : Bool
deriving DecidableEq

/-- The closed set of typed protocol messages ParseMessage can return.
Ping has no dedicated struct: it travels as the bare envelope with tag 6
(hubconnection.go builds hubMessage\x7bType: 6\x7d and ParseMessage's switch has
no case for 6, so it falls to the default envelope branch). -/
inductive HubMsg where
  | invocation (m : invocationMessage)
  | streamItem (m : streamItemMessage)
  | completion (m : completionMessage)
  | cancelInvocation (m : cancelInvocationMessage)
  | close (m : closeMessage)
  | envelope (m : hubMessage)

/-- json.Unmarshal of a frame into the hubMessage envelope: the frame must
be a JSON object and its type tag (absent means 0) an integral number. -/
def unmarshalHubMessage : Json → Option hubMessage
  | .obj fs => (decodeIntField (lookupField fs "type")).map hubMessage.mk
  | _ => none

/-- jsonInvocationMessage.UnmarshalJSON followed by the raw-argument copy in
ParseMessage's case 1, 4 (jsonhubprotocol.go lines 69-85). -/
def unmarshalInvocationMessage : Json → Option invocationMessage
  | .obj fs => do
    let t ← decodeIntField (lookupField fs "type")
    let target ← decodeStrField (lookupField fs "target")
    let id ← decodeStrField (lookupField fs "invocationId")
    let args ← decodeArgsField (lookupField fs "arguments")
    let sids ← decodeStrListField (lookupField fs "streamIds")
    pure ⟨t, target, id, args, sids⟩
  | _ => none

/-- streamItemMessage.UnmarshalJSON (generated easyjson code, modelled from
the spec's field table §6). -/
def unmarshalStreamItemMessage : Json → Option streamItemMessage
  | .obj fs => do
    let t ← decodeIntField (lookupField fs "type")
    let id ← decodeStrField (lookupField fs "invocationId")
    pure ⟨t, id, decodeItemField (lookupField fs "item")⟩
  | _ => none

/-- completionMessage.UnmarshalJSON (modelled from the spec §6: optional
result payload, optional error text). -/
def unmarshalCompletionMessage : Json → Option completionMessage
  | .obj fs => do
    let t ← decodeIntField (lookupField fs "type")
    let id ← decodeStrField (lookupField fs "invocationId")
    let e ← decodeStrField (lookupField fs "error")
    pure ⟨t, id, lookupField fs "result", e⟩
  | _ => none

/-- cancelInvocationMessage.UnmarshalJSON (modelled from the spec §6). -/
def unmarshalCancelInvocationMessage : Json → Option cancelInvocationMessage
  | .obj fs => do
    let t ← decodeIntField (lookupField fs "type")
    let id ← decodeStrField (lookupField fs "invocationId")
    pure ⟨t, id⟩
  | _ => none

/-- closeMessage.UnmarshalJSON (modelled from the spec §6). -/
def unmarshalCloseMessage : Json → Option closeMessage
  | .obj fs => do
    let t ← decodeIntField (lookupField fs "type")
    let e ← decodeStrField (lookupField fs "error")
    let ar ← decodeBoolField (lookupField fs "allowReconnect")
    pure ⟨t, e, ar⟩
  | _ => none

/-- JSONHubProtocol.ParseMessage (jsonhubprotocol.go lines 52-113) applied
to one already-extracted frame: unmarshal the envelope, switch on the type
tag (cases 1, 4 / 2 / 3 / 5 / 7), re-unmarshal fully typed, and return the
bare envelope for every other tag. Go returns a (message, err) pair whose
err wraps the unmarshal failure in a jsonError; failures are modelled as
the error branch of Except. -/
def ParseMessage (j : Json) : Except String HubMsg :=
  match unmarshalHubMessage j with
  | none => .error "envelope unmarshal failed"
  | some message =>
    if message.type = 1 ∨ message.type = 4 then
      match unmarshalInvocationMessage j with
      | some inv => .ok (.invocation inv)
      | none => .error "invocation unmarshal failed"
    else if message.type = 2 then
      match unmarshalStreamItemMessage j with
      | some si => .ok (.streamItem si)
      | none => .error "streamItem unmarshal failed"
    else if message.type = 3 then
      match unmarshalCompletionMessage j with
      | some cm => .ok (.completion cm)
      | none => .error "completion unmarshal failed"
    else if message.type = 5 then
      match unmarshalCancelInvocationMessage j with
      | some cm => .ok (.cancelInvocation cm)
      | none => .error "cancelInvocation unmarshal failed"
    else if message.type = 7 then
      match unmarshalCloseMessage j with
      | some cm => .ok (.close cm)
      | none => .error "close unmarshal failed"
    else
      .ok (.envelope message)

/-- Marshalling of jsonInvocationMessage (field tags in jsonhubprotocol.go
lines 22-28: streamIds carries omitempty, the other fields are always
emitted). -/
def marshalInvocationMessage (m : invocationMessage) : Json :=
  .obj ([("type", .num (m.type : ℚ)), ("target", .str m.Target),
         ("invocationId", .str m.InvocationID),
         ("arguments", .arr m.Arguments)] ++
        (if m.StreamIds.isEmpty then []
         else [("streamIds", .arr (m.StreamIds.map Json.str))]))

/-- JSONHubProtocol.WriteMessage's easyjson marshal step, per message kind.
Modelled from the spec §6 field table for the structs whose generated
marshallers are not under src/; the delimiter byte appended after the
marshalled frame belongs to the framing layer below. -/
def WriteMessage : HubMsg → Json
  | .invocation m => marshalInvocationMessage m
  | .streamItem m =>
    .obj [("type", .num (m.type : ℚ)), ("invocationId", .str m.InvocationID),
          ("item", m.Item)]
  | .completion m =>
    .obj ([("type", .num (m.type : ℚ)), ("invocationId", .str m.InvocationID)] ++
          (match m.Result with | some r => [("result", r)] | none => []) ++
          (if m.Error = "" then [] else [("error", .str m.Error)]))
  | .cancelInvocation m =>
    .obj [("type", .num (m.type : ℚ)), ("invocationId", .str m.InvocationID)]
  | .close m =>
    .obj [("type", .num (m.type : ℚ)), ("error", .str m.Error),
          ("allowReconnect", .bool m.AllowReconnect)]
  | .envelope m => .obj [("type", .num (m.type : ℚ))]

/-- A message is well formed when its stored type tag matches its kind
(spec §6 table); an envelope is reserved for tags with no dedicated
parse case (6 = Ping among them). -/
def HubMsg.wellFormed : HubMsg → Prop
  | .invocation m => m.type = 1 ∨ m.type = 4
  | .streamItem m => m.type = 2
  | .completion m => m.type = 3
  | .cancelInvocation m => m.type = 5
  | .close m => m.type = 7
  | .envelope m =>
    m.type ≠ 1 ∧ m.type ≠ 2 ∧ m.type ≠ 3 ∧ m.type ≠ 4 ∧ m.type ≠ 5 ∧ m.type ≠ 7

/-! ## streamClient (client-to-server streaming multiplexer) -/

/-- Element type of an upstream channel, mirroring the reflect.Type kinds
that streamclient.go distinguishes (the basic types handled by
convertNumberToChannelType, slices/arrays, and everything else). -/
inductive ElemType where
  | int | int8 | int16 | int32 | int64
  | uint | uint8 | uint16 | uint32 | uint64
  | float32 | float64
  | stringT
  | boolT
  | slice (e : ElemType)
  | array (e : ElemType)
  | other
deriving DecidableEq

/-- Channel direction, mirroring reflect.ChanDir. -/
inductive ChanDir where
  | sendDir | recvDir | bothDir
deriving DecidableEq

/-- The reflect.Type of a method parameter: a channel with a direction and
element type, or any non-channel type. -/
inductive GoType where
  | chan (dir : ChanDir) (elem : ElemType)
  | nonChan
deriving DecidableEq

/-- A value sent on an upstream channel: either a value produced by
convertNumberToChannelType (carrying the concrete Go type it was converted
to) or the raw decoded item sent through reflect.Value.Send in the default
branch of receiveStreamItem. -/
inductive ChanVal where
  | conv (ty : ElemType) (v : Int)
  | convFloat (ty : ElemType) (v : ℚ)
  | convString (s : String)
  | raw (j : Json)

/-- One upstream channel: its element type and, in place of the Go channel
object, the ordered list of values sent on it and its closed flag. -/
structure UpChan where
  elem : ElemType
  sent : List ChanVal
  closed : Bool

/-- streamClient: the registry mapping stream id to upstream channel
(streamclient.go, field upstreamChannels). The Go map has unique keys;
the model keeps an association list and operates on the first match. -/
structure streamClient where
  upstreamChannels : List (String × UpChan)

/-- Go map read: first (only) entry for the key. -/
def lookupChan : List (String × UpChan) → String → Option UpChan
  | [], _ => none
  | (k, c) :: rest, key => if k = key then some c else lookupChan rest key

/-- Go map write of an existing key: replace the entry. -/
def updateChan : List (String × UpChan) → String → (UpChan → UpChan) →
    List (String × UpChan)
  | [], _, _ => []
  | (k, c) :: rest, key, f =>
    if k = key then (k, f c) :: rest else (k, c) :: updateChan rest key f

/-- Go map insert: overwrite the entry when the key exists, append
otherwise. -/
def insertChan (l : List (String × UpChan)) (key : String) (c : UpChan) :
    List (String × UpChan) :=
  match lookupChan l key with
  | some _ => updateChan l key (fun _ => c)
  | none => l ++ [(key, c)]

/-- Go map delete of a key. -/
def deleteChan : List (String × UpChan) → String → List (String × UpChan)
  | [], _ => []
  | (k, c) :: rest, key =>
    if k = key then rest else (k, c) :: deleteChan rest key

/-- Result triple of buildChannelArgument: whether a channel argument was
produced, the canClientStreaming flag, and the error. -/
structure BuildChanResult where
  argBuilt : Bool
  canClientStreaming : Bool
  err : Option String

/-- streamClient.buildChannelArgument (streamclient.go lines 16-28): a
non-channel or send-only parameter yields no argument and no error; a
receivable channel parameter gets a fresh channel registered under the
next declared stream id when the invocation declares more stream ids than
channels bound so far; otherwise it reports the too-many-chan-parameters
error. -/
def buildChannelArgument (u : streamClient) (invocation : invocationMessage)
    (argType : GoType) (chanCount : Nat) : streamClient × BuildChanResult :=
  match argType with
  | .nonChan => (u, ⟨false, false, none⟩)
  | .chan dir elem =>
    if dir = .sendDir then (u, ⟨false, false, none⟩)
    else if invocation.StreamIds.length > chanCount then
      ({ upstreamChannels :=
           insertChan u.upstreamChannels (invocation.StreamIds.getD chanCount "")
             ⟨elem, [], false⟩ },
       ⟨true, true, none⟩)
    else
      (u, ⟨false, true,
           some ("method " ++ invocation.Target ++
                 " has more chan parameters than the client will stream")⟩)

/-- Modelled from the spec: the dispatcher (hubserver code not under src/)
walks the method's parameter types in order, calling buildChannelArgument
with the count of channel arguments bound so far, and aborts the call at
the first error (spec §4.4 step 3). Returns the final registry and the
error that aborted the call, if any. -/
def bindChannelArgs (u : streamClient) (invocation : invocationMessage) :
    List GoType → Nat → streamClient × Option String
  | [], _ => (u, none)
  | p :: rest, chanCount =>
    match buildChannelArgument u invocation p chanCount with
    | (u', ⟨_, _, some e⟩) => (u', some e)
    | (u', ⟨built, _, none⟩) =>
      bindChannelArgs u' invocation rest (if built then chanCount + 1 else chanCount)

/-- Number of parameters for which buildChannelArgument tries to bind an
upstream channel: receivable (recv or bidirectional) channel parameters. -/
def countRecvChans : List GoType → Nat
  | [] => 0
  | .chan dir _ :: rest =>
    (if dir = .sendDir then 0 else 1) + countRecvChans rest
  | .nonChan :: rest => countRecvChans rest

/-- Go's conversion of a float64 to an integer type truncates toward zero
(the fractional part is discarded). Out-of-range conversions are
implementation-defined in Go and are modelled as unbounded truncation. -/
def truncToward0 (q : ℚ) : Int :=
  if 0 ≤ q then ⌊q⌋ else ⌈q⌉

/-- Whether an ElemType is one of the ten Go integer types, i.e. the cases
of convertNumberToChannelType that apply an integer conversion. -/
def ElemType.isIntegerTy : ElemType → Bool
  | .int | .int8 | .int16 | .int32 | .int64
  | .uint | .uint8 | .uint16 | .uint32 | .uint64 => true
  | _ => false

/-- Whether an ElemType is a basic numeric type (an integer type or a
float type), i.e. gets converted with ok = true and a numeric result by
convertNumberToChannelType. -/
def ElemType.isBasicNumeric : ElemType → Bool
  | .float32 | .float64 => true
  | t => t.isIntegerTy

/-- convertNumberToChannelType (streamclient.go lines 73-103): switch on
the channel element's dynamic type; integer targets truncate, float
targets keep the value, string formats it with fmt.Sprint (modelled as
toString on ℚ), and every other type returns the number with ok = false. -/
def convertNumberToChannelType (chanElm : ElemType) (number : ℚ) :
    ChanVal × Bool :=
  match chanElm with
  | .int => (.conv .int (truncToward0 number), true)
  | .int8 => (.conv .int8 (truncToward0 number), true)
  | .int16 => (.conv .int16 (truncToward0 number), true)
  | .int32 => (.conv .int32 (truncToward0 number), true)
  | .int64 => (.conv .int64 (truncToward0 number), true)
  | .uint => (.conv .uint (truncToward0 number), true)
  | .uint8 => (.conv .uint8 (truncToward0 number), true)
  | .uint16 => (.conv .uint16 (truncToward0 number), true)
  | .uint32 => (.conv .uint32 (truncToward0 number), true)
  | .uint64 => (.conv .uint64 (truncToward0 number), true)
  | .float32 => (.convFloat .float32 number, true)
  | .float64 => (.convFloat .float64 number, true)
  | .stringT => (.convString (toString number), true)
  | t => (.convFloat t number, false)

/-- Kind test used by receiveStreamItem's outer switch: is the decoded
stream item a slice or an array? JSON decoding into interface\x7b\x7d only
produces slices for JSON arrays. -/
def Json.isSeqKind : Json → Bool
  | .arr _ => true
  | _ => false

/-- Kind test used by receiveStreamItem's inner switch on the channel
element type. -/
def ElemType.isSeqKind : ElemType → Bool
  | .slice _ => true
  | .array _ => true
  | _ => false

/-- Whether reflect.Value.Send of the raw decoded item on a channel with
the given element type succeeds (matching dynamic type) or panics (the
panic is recovered and returned as an error by receiveStreamItem's
default branch). Numbers and sequences never reach this test. -/
def rawSendMatches : Json → ElemType → Bool
  | .str _, .stringT => true
  | .bool _, .boolT => true
  | _, _ => false

/-- streamClient.receiveStreamItem (streamclient.go lines 30-71). Returns
the updated registry and the error, if any. An unknown invocation id falls
through to return nil. A float64 item is converted with
convertNumberToChannelType and sent only when ok. A slice/array item
paired with a slice/array channel element breaks out of both switches
without sending anything; paired with any other element type it is an
error. Every other item kind is sent through reflect and a type-mismatch
panic is recovered into an error. -/
def receiveStreamItem (u : streamClient) (streamItem : streamItemMessage) :
    streamClient × Option String :=
  match lookupChan u.upstreamChannels streamItem.InvocationID with
  | none => (u, none)
  | some upChan =>
    match streamItem.Item with
    | .num f =>
      match convertNumberToChannelType upChan.elem f with
      | (chanVal, true) =>
        ({ upstreamChannels :=
             updateChan u.upstreamChannels streamItem.InvocationID
               (fun c => { c with sent := c.sent ++ [chanVal] }) }, none)
      | (_, false) => (u, none)
    | item =>
      if item.isSeqKind then
        if upChan.elem.isSeqKind then
          (u, none)
        else
          (u, some "stream item of sequence kind paired with channel of other type")
      else
        if rawSendMatches item upChan.elem then
          ({ upstreamChannels :=
               updateChan u.upstreamChannels streamItem.InvocationID
                 (fun c => { c with sent := c.sent ++ [.raw item] }) }, none)
        else
          (u, some "reflect: send of wrong type on channel")

/-- streamClient.receiveCompletionItem (streamclient.go lines 105-110):
close and remove the channel for the completion's invocation id, if
present. -/
def receiveCompletionItem (u : streamClient) (completion : completionMessage) :
    streamClient :=
  match lookupChan u.upstreamChannels completion.InvocationID with
  | none => u
  | some _ =>
    { upstreamChannels := deleteChan u.upstreamChannels completion.InvocationID }

/-! ## defaultHubConnection (hubconnection.go) -/

/-- defaultHubConnection: the Connected int32 flag (here a Bool) plus, in
place of the underlying transport, the trace of messages handed to
WriteMessage (attempted) and of those whose transport write succeeded
(written). Whether each write succeeds is supplied per call as the
writeOk argument, standing for the behaviour of the external transport. -/
structure defaultHubConnection where
  Connected : Bool
  attempted : List HubMsg
  written : List HubMsg

/-- A fresh connection as built by newHubConnection: zero value, hence not
connected, nothing written. -/
def newHubConnection : defaultHubConnection := ⟨false, [], []⟩

/-- defaultHubConnection.Start: CompareAndSwap(Connected, 0, 1). -/
def Start (c : defaultHubConnection) : defaultHubConnection :=
  { c with Connected := true }

/-- defaultHubConnection.IsConnected. -/
def IsConnected (c : defaultHubConnection) : Bool :=
  c.Connected

/-- One call of Protocol.WriteMessage on the connection's transport: the
message is always attempted; it lands on the wire only when the transport
write succeeds. The error WriteMessage returns is exactly ¬ writeOk. -/
def writeToConn (c : defaultHubConnection) (m : HubMsg) (writeOk : Bool) :
    defaultHubConnection :=
  { c with attempted := c.attempted ++ [m],
           written := if writeOk then c.written ++ [m] else c.written }

/-- defaultHubConnection.Close (hubconnection.go lines 49-58, cited at
invocation_test.go context lines 281-290): store Connected = 0, then
write a closeMessage with Type 7, the given error text, and
AllowReconnect hard-coded to true; the write error is discarded. -/
def Close (c : defaultHubConnection) (error : String) (writeOk : Bool) :
    defaultHubConnection :=
  writeToConn { c with Connected := false }
    (.close ⟨7, error, true⟩) writeOk

/-- defaultHubConnection.SendInvocation: build a send-only invocation
message (Type 1, no invocation id, no stream ids) and write it; the write
error is discarded and the state is untouched. -/
def SendInvocation (c : defaultHubConnection) (target : String)
    (args : List Json) (writeOk : Bool) : defaultHubConnection :=
  writeToConn c (.invocation ⟨1, target, "", args, []⟩) writeOk

/-- defaultHubConnection.Ping: write the bare envelope with Type 6; the
write error is discarded. -/
def Ping (c : defaultHubConnection) (writeOk : Bool) : defaultHubConnection :=
  writeToConn c (.envelope ⟨6⟩) writeOk

/-- defaultHubConnection.Completion (cited at invocation_test.go context
lines 334-343): build a completionMessage and write it; the write error
is discarded and the state is untouched. -/
def Completion (c : defaultHubConnection) (id : String) (result : Option Json)
    (error : String) (writeOk : Bool) : defaultHubConnection :=
  writeToConn c (.completion ⟨3, id, result, error⟩) writeOk

/-- defaultHubConnection.StreamItem (cited at invocation_test.go context
lines 345-353): build a streamItemMessage and write it; the write error
is discarded and the state is untouched. -/
def StreamItem (c : defaultHubConnection) (id : String) (item : Json)
    (writeOk : Bool) : defaultHubConnection :=
  writeToConn c (.streamItem ⟨2, id, item⟩) writeOk

/-! ## Frame reader (parseTextMessageFormat + defaultHubConnection.Receive)

Bytes are modelled as natural numbers; 30 is the ASCII record separator
that terminates each frame. -/

/-- parseTextMessageFormat on a bytes.Buffer (the JsonHubProtocol variant
used by defaultHubConnection.Receive): bytes.Buffer.ReadBytes(30). When
the delimiter is present it returns the bytes before it and leaves the
rest in the buffer; when it is absent the whole buffer is consumed and
ReadBytes reports io.EOF, upon which ReadMessage discards the partial
data and reports the message as incomplete (modelled as none). -/
def readFrameFromBuffer : List Nat → Option (List Nat × List Nat)
  | [] => none
  | b :: bs =>
    if b = 30 then some ([], bs)
    else
      match readFrameFromBuffer bs with
      | some (frame, rest) => some (b :: frame, rest)
      | none => none

/-- defaultHubConnection.Receive (hubconnection.go, cited at
invocation_test.go context lines 314-332): loop calling
Protocol.ReadMessage on a buffer local to this Receive call. When the
message is incomplete the code refills the buffer with data[:n] — only
the transport chunk read by the previous iteration, since the data array
is overwritten by each Read — then reads the next chunk from the
transport and appends it. The remaining transport chunks stand in for
Connection.Read; reaching their end models a read error/EOF (none). The
returned value is the frame handed to the JSON decode. -/
def receiveLoop : List (List Nat) → List Nat → List Nat → Option (List Nat)
  | chunks, buf, lastChunk =>
    match readFrameFromBuffer buf with
    | some (frame, _) => some frame
    | none =>
      match chunks with
      | [] => none
      | chunk :: rest => receiveLoop rest (lastChunk ++ chunk) chunk

/-- One call of Receive: fresh empty local buffer, no chunk read yet
(n = 0), against a transport that will deliver the given chunks. -/
def Receive (chunks : List (List Nat)) : Option (List Nat) :=
  receiveLoop chunks [] []

/-! ## JSONHubProtocol.UnmarshalArgument -/

/-- The dynamic type of a Go interface\x7b\x7d value passed as the argument
parameter of UnmarshalArgument: a json.RawMessage (carrying its parsed
payload) or a value of any other dynamic type. -/
inductive GoVal where
  | rawMessage (j : Json)
  | goString (s : String)
  | goFloat (q : ℚ)
  | goInt (n : Int)
  | goBool (b : Bool)

/-- Go types a caller may unmarshal an argument into. -/
inductive TargetTy where
  | tInt | tFloat | tString | tBool
deriving DecidableEq

/-- json.Unmarshal of a raw payload into a pointer of the target type. -/
def jsonUnmarshalAs : TargetTy → Json → Option GoVal
  | .tInt, .num q => (ratToInt q).map .goInt
  | .tFloat, .num q => some (.goFloat q)
  | .tString, .str s => some (.goString s)
  | .tBool, .bool b => some (.goBool b)
  | _, _ => none

/-- The three ways an UnmarshalArgument call can end: a runtime panic from
the interface type assertion, a decoded value, or a jsonError wrapping
the unmarshal failure. -/
inductive UnmarshalOutcome where
  | assertionPanic
  | ok (v : GoVal)
  | jsonErr (raw : Json)

/-- JSONHubProtocol.UnmarshalArgument (jsonhubprotocol.go lines 40-48):
the first statement asserts argument.(json.RawMessage); when the dynamic
type is anything else the assertion panics. Under the assertion, the raw
payload is unmarshalled into the value's type, a failure being wrapped in
a jsonError. -/
def UnmarshalArgument (argument : GoVal) (valueTy : TargetTy) :
    UnmarshalOutcome :=
  match argument with
  | .rawMessage j =>
    match jsonUnmarshalAs valueTy j with
    | some v => .ok v
    | none => .jsonErr j
  | _ => .assertionPanic

/-- Whether the dynamic type of the value is json.RawMessage. -/
def GoVal.isRawMessage : GoVal → Bool
  | .rawMessage _ => true
  | _ => false

/-! ## Helper lemmas -/

theorem decodeStrList_map_str (l : List String) :
    decodeStrList (l.map Json.str) = some l := by
  induction l with
  | nil => rfl
  | cons s rest ih => simp [decodeStrList, ih]

theorem decodeIntField_typeTag (t : Int) :
    decodeIntField (some (.num (t : ℚ))) = some t := by
  simp [decodeIntField, ratToInt]

theorem lookupChan_updateChan (l : List (String × UpChan)) (key : String)
    (f : UpChan → UpChan) :
    lookupChan (updateChan l key f) key = (lookupChan l key).map f := by
  induction l with
  | nil => rfl
  | cons kv rest ih =>
    obtain ⟨k, c⟩ := kv
    by_cases hk : k = key
    · simp [lookupChan, updateChan, hk]
    · simp [lookupChan, updateChan, hk, ih]

theorem convertNumber_ok_of_basicNumeric (t : ElemType) (q : ℚ)
    (h : t.isBasicNumeric = true) :
    (convertNumberToChannelType t q).2 = true := by
  cases t <;> simp_all [ElemType.isBasicNumeric, ElemType.isIntegerTy,
    convertNumberToChannelType]

theorem convertNumber_truncates_integers (t : ElemType) (q : ℚ)
    (h : t.isIntegerTy = true) :
    (convertNumberToChannelType t q).1 = .conv t (truncToward0 q) := by
  cases t <;> simp_all [ElemType.isIntegerTy, convertNumberToChannelType]

theorem bindChannelArgs_error_iff_aux (inv : invocationMessage) :
    ∀ (params : List GoType) (u : streamClient) (c : Nat),
      ((bindChannelArgs u inv params c).2 ≠ none ↔
        (0 < countRecvChans params ∧
          inv.StreamIds.length < c + countRecvChans params)) := by
  intro params
  induction params with
  | nil => intro u c; simp [bindChannelArgs, countRecvChans]
  | cons p rest ih =>
    intro u c
    cases p with
    | nonChan =>
      simpa [bindChannelArgs, buildChannelArgument, countRecvChans] using ih u c
    | chan dir elem =>
      by_cases hd : dir = .sendDir
      · subst hd
        simpa [bindChannelArgs, buildChannelArgument, countRecvChans] using ih u c
      · by_cases hlen : inv.StreamIds.length > c
        · simp only [bindChannelArgs, buildChannelArgument, if_neg hd, if_pos hlen]
          rw [ih]
          simp only [countRecvChans, if_neg hd, if_true]
          omega
        · simp [bindChannelArgs, buildChannelArgument, hd, hlen, countRecvChans]
          omega

/-! ## Claim theorems -/

/-- Claim C1 (code bug): the claim states that repeated Receive calls yield
the same decoded frames for every chunking of the byte stream, with
leftover bytes retained across reads. The code violates this: Receive's
refill step restores only the most recent transport chunk into its local
buffer, so when a frame spans three chunks the earliest chunk is lost.
Concretely, the frame 97 98 99 (delimiter 30) delivered as one chunk is
received intact, but delivered as three chunks the first byte is dropped
and the frame comes out as 98 99. -/
theorem receive_chunk_splitting_loses_data :
    Receive [[97], [98], [99, 30]] = some [98, 99] ∧
    Receive [[97, 98, 99, 30]] = some [97, 98, 99] := by
  exact ⟨rfl, rfl⟩

/-- Claim C2: for every well-formed protocol message of any kind
(Invocation, StreamInvocation, StreamItem, Completion, CancelInvocation,
Ping as the tag-6 envelope, Close), parsing the frame produced by writing
the message returns the original message: decode after encode is the
identity. -/
theorem parse_write_roundtrip (m : HubMsg) (h : m.wellFormed) :
    ParseMessage (WriteMessage m) = .ok m := by
  cases m with
  | invocation m =>
    obtain ⟨t, target, id, args, sids⟩ := m
    have hcond : t = 1 ∨ t = 4 := h
    by_cases hs : sids.isEmpty
    · have hnil : sids = [] := by simpa using hs
      subst hnil
      simp [ParseMessage, WriteMessage, marshalInvocationMessage, unmarshalHubMessage,
            unmarshalInvocationMessage, decodeIntField_typeTag, decodeStrField,
            decodeArgsField, decodeStrListField, lookupField, hcond]
    · simp [ParseMessage, WriteMessage, marshalInvocationMessage, unmarshalHubMessage,
            unmarshalInvocationMessage, decodeIntField_typeTag, decodeStrField,
            decodeArgsField, decodeStrListField, lookupField, hs, decodeStrList_map_str, hcond]
  | streamItem m =>
    obtain ⟨t, id, item⟩ := m
    have ht : t = 2 := h
    subst ht
    simp [ParseMessage, WriteMessage, unmarshalHubMessage, unmarshalStreamItemMessage,
          decodeIntField, ratToInt, decodeStrField, decodeItemField, lookupField]
  | completion m =>
    obtain ⟨t, id, result, error⟩ := m
    have ht : t = 3 := h
    subst ht
    cases result with
    | none =>
      by_cases he : error = ""
      · subst he
        simp [ParseMessage, WriteMessage, unmarshalHubMessage, unmarshalCompletionMessage,
              decodeIntField, ratToInt, decodeStrField, lookupField]
      · simp [ParseMessage, WriteMessage, unmarshalHubMessage, unmarshalCompletionMessage,
              decodeIntField, ratToInt, decodeStrField, lookupField, he]
    | some r =>
      by_cases he : error = ""
      · subst he
        simp [ParseMessage, WriteMessage, unmarshalHubMessage, unmarshalCompletionMessage,
              decodeIntField, ratToInt, decodeStrField, lookupField]
      · simp [ParseMessage, WriteMessage, unmarshalHubMessage, unmarshalCompletionMessage,
              decodeIntField, ratToInt, decodeStrField, lookupField, he]
  | cancelInvocation m =>
    obtain ⟨t, id⟩ := m
    have ht : t = 5 := h
    subst ht
    simp [ParseMessage, WriteMessage, unmarshalHubMessage, unmarshalCancelInvocationMessage,
          decodeIntField, ratToInt, decodeStrField, lookupField]
  | close m =>
    obtain ⟨t, error, ar⟩ := m
    have ht : t = 7 := h
    subst ht
    simp [ParseMessage, WriteMessage, unmarshalHubMessage, unmarshalCloseMessage,
          decodeIntField, ratToInt, decodeStrField, decodeBoolField, lookupField]
  | envelope m =>
    obtain ⟨t⟩ := m
    obtain ⟨h1, h2, h3, h4, h5, h7⟩ := h
    simp [ParseMessage, WriteMessage, unmarshalHubMessage, decodeIntField_typeTag,
          lookupField, h1, h2, h3, h4, h5, h7]

/-- Witness for C2: the round trip at a concrete invocation message with a
numeric argument payload and one stream id. -/
theorem parse_write_roundtrip_witness :
    ParseMessage (WriteMessage
        (.invocation ⟨1, "simple", "123", [.num 314], ["sid"]⟩)) =
      .ok (.invocation ⟨1, "simple", "123", [.num 314], ["sid"]⟩) :=
  parse_write_roundtrip (.invocation ⟨1, "simple", "123", [.num 314], ["sid"]⟩)
    (Or.inl rfl)

/-- Counterexample to C3: a typed send whose transport write fails does not
close the connection. Starting from a connected connection, Completion
with a failing write leaves IsConnected true, where the claim requires it
to become false. -/
theorem send_write_failure_leaves_connection_open :
    IsConnected (Completion (Start newHubConnection) "1" none "" false) = true := rfl

/-- Claim C3 as amended: the typed send operations (SendInvocation,
StreamItem, Completion, Ping) discard the result of the underlying
transport write entirely: whether or not the write fails, the operation
reports no error, the connection state is unchanged (IsConnected is
preserved, there is no transition to Closed), and each operation always
attempts to write its message regardless of the connection state. -/
theorem sends_discard_write_errors (c : defaultHubConnection)
    (target id error : String) (args : List Json) (item : Json)
    (result : Option Json) (writeOk : Bool) :
    IsConnected (SendInvocation c target args writeOk) = IsConnected c ∧
    IsConnected (StreamItem c id item writeOk) = IsConnected c ∧
    IsConnected (Completion c id result error writeOk) = IsConnected c ∧
    IsConnected (Ping c writeOk) = IsConnected c ∧
    (Completion c id result error writeOk).attempted =
      c.attempted ++ [.completion ⟨3, id, result, error⟩] ∧
    (SendInvocation c target args writeOk).attempted =
      c.attempted ++ [.invocation ⟨1, target, "", args, []⟩] ∧
    (StreamItem c id item writeOk).attempted =
      c.attempted ++ [.streamItem ⟨2, id, item⟩] ∧
    (Ping c writeOk).attempted = c.attempted ++ [.envelope ⟨6⟩] := by
  simp [IsConnected, SendInvocation, StreamItem, Completion, Ping, writeToConn]

/-- Counterexample to C4: an invocation declaring two stream ids for a
method with a single streaming (bidirectional channel) parameter is not
treated as an error: channel-argument binding succeeds with no error, so
the call is not aborted. -/
theorem extra_stream_ids_do_not_abort :
    (bindChannelArgs ⟨[]⟩ ⟨1, "m", "i", [], ["s1", "s2"]⟩ [.chan .bothDir .int] 0).2 =
      none := rfl

/-- Claim C4 as amended: channel-argument binding fails with an error (and
the call is aborted before the method is invoked) exactly when the
invocation declares fewer stream ids than the target method has
receivable channel parameters; declaring more stream ids than channel
parameters is accepted, the extra ids simply going unused. -/
theorem bindChannelArgs_error_iff (u : streamClient) (inv : invocationMessage)
    (params : List GoType) :
    (bindChannelArgs u inv params 0).2 ≠ none ↔
      inv.StreamIds.length < countRecvChans params := by
  rw [bindChannelArgs_error_iff_aux]
  omega

/-- Claim C5: a stream item whose payload decodes as a number (float64),
addressed to a registered upstream channel with a basic numeric element
type, is not rejected: receiveStreamItem reports no error, the value
narrowed by convertNumberToChannelType is appended to the channel, and
for every integer element type the narrowing truncates toward zero. -/
theorem numeric_item_narrowed_and_sent (u : streamClient) (id : String) (q : ℚ)
    (ch : UpChan) (hch : lookupChan u.upstreamChannels id = some ch)
    (hnum : ch.elem.isBasicNumeric = true) :
    (receiveStreamItem u ⟨2, id, .num q⟩).2 = none ∧
    lookupChan (receiveStreamItem u ⟨2, id, .num q⟩).1.upstreamChannels id =
      some { ch with sent := ch.sent ++ [(convertNumberToChannelType ch.elem q).1] } ∧
    (ch.elem.isIntegerTy = true →
      (convertNumberToChannelType ch.elem q).1 = .conv ch.elem (truncToward0 q)) := by
  have hok := convertNumber_ok_of_basicNumeric ch.elem q hnum
  rcases hcv : convertNumberToChannelType ch.elem q with ⟨cv, ok⟩
  rw [hcv] at hok
  subst hok
  refine ⟨?_, ?_, ?_⟩
  · simp [receiveStreamItem, hch, hcv]
  · simp [receiveStreamItem, hch, hcv, lookupChan_updateChan]
  · intro hint
    rw [← hcv]
    exact convertNumber_truncates_integers ch.elem q hint

/-- Witness for C5: a stream item carrying 7/2 for a channel of ints is
accepted without error. -/
theorem numeric_item_narrowed_and_sent_witness :
    (receiveStreamItem ⟨[("s", ⟨.int, [], false⟩)]⟩ ⟨2, "s", .num (7/2)⟩).2 = none :=
  (numeric_item_narrowed_and_sent ⟨[("s", ⟨.int, [], false⟩)]⟩ "s" (7/2)
    ⟨.int, [], false⟩ rfl rfl).1

/-- Counterexample to C6: a sequence (slice) payload addressed to a
registered channel whose element type is a slice is not converted and
sent: receiveStreamItem returns the registry unchanged (the channel's
sent list stays empty) with no error, so the item is silently dropped
rather than delivered. -/
theorem seq_item_for_seq_channel_not_sent :
    receiveStreamItem ⟨[("s", ⟨.slice .int, [], false⟩)]⟩ ⟨2, "s", .arr [.num 1]⟩ =
      (⟨[("s", ⟨.slice .int, [], false⟩)]⟩, none) := rfl

/-- Claim C6 as amended: for a registered channel, a sequence-typed
(slice/array) payload is accepted without error when the channel's
element type is itself sequence-typed, but the item is dropped — nothing
is sent and the registry is unchanged; when the channel's element type is
not sequence-typed the kind mismatch is reported as an error on that
stream. -/
theorem seq_item_dropped_or_error (u : streamClient) (id : String)
    (xs : List Json) (ch : UpChan)
    (hch : lookupChan u.upstreamChannels id = some ch) :
    (ch.elem.isSeqKind = true → receiveStreamItem u ⟨2, id, .arr xs⟩ = (u, none)) ∧
    (ch.elem.isSeqKind = false →
      receiveStreamItem u ⟨2, id, .arr xs⟩ =
        (u, some "stream item of sequence kind paired with channel of other type")) := by
  constructor <;> intro h <;>
    simp [receiveStreamItem, hch, Json.isSeqKind, h]

/-- Witness for C6 as amended: an empty-list payload for a channel of
float64 slices is accepted without error and without any state change. -/
theorem seq_item_dropped_or_error_witness :
    receiveStreamItem ⟨[("t", ⟨.slice .float64, [], false⟩)]⟩ ⟨2, "t", .arr []⟩ =
      (⟨[("t", ⟨.slice .float64, [], false⟩)]⟩, none) :=
  (seq_item_dropped_or_error ⟨[("t", ⟨.slice .float64, [], false⟩)]⟩ "t" []
    ⟨.slice .float64, [], false⟩ rfl).1 rfl

/-- Claim C7: a stream item whose invocation id has no registered upstream
channel is a no-op: receiveStreamItem returns with no error and the
registry — hence every registered channel — is left unchanged. -/
theorem unknown_stream_id_is_noop (u : streamClient) (msg : streamItemMessage)
    (h : lookupChan u.upstreamChannels msg.InvocationID = none) :
    receiveStreamItem u msg = (u, none) := by
  simp [receiveStreamItem, h]

/-- Witness for C7: a stream item against an empty registry. -/
theorem unknown_stream_id_is_noop_witness :
    receiveStreamItem ⟨[]⟩ ⟨2, "x", .num 1⟩ = (⟨[]⟩, none) :=
  unknown_stream_id_is_noop ⟨[]⟩ ⟨2, "x", .num 1⟩ rfl

/-- Claim C8: a frame parsing as a JSON object whose integral type tag is
none of the recognized kinds with a dedicated parse case decodes
successfully to the minimal envelope carrying just that tag, with no
error. -/
theorem unknown_type_tag_yields_envelope (fs : List (String × Json)) (n : Int)
    (hty : lookupField fs "type" = some (.num (n : ℚ)))
    (h1 : n ≠ 1) (h2 : n ≠ 2) (h3 : n ≠ 3) (h4 : n ≠ 4) (h5 : n ≠ 5)
    (h7 : n ≠ 7) :
    ParseMessage (.obj fs) = .ok (.envelope ⟨n⟩) := by
  simp [ParseMessage, unmarshalHubMessage, hty, decodeIntField_typeTag,
    h1, h2, h3, h4, h5, h7]

/-- Witness for C8: a frame with the unknown tag 42 decodes to the bare
envelope. -/
theorem unknown_type_tag_yields_envelope_witness :
    ParseMessage (.obj [("type", .num ((42 : Int) : ℚ))]) =
      .ok (.envelope ⟨42⟩) :=
  unknown_type_tag_yields_envelope [("type", .num ((42 : Int) : ℚ))] 42 rfl
    (by decide) (by decide) (by decide) (by decide) (by decide) (by decide)

/-- Claim C9: UnmarshalArgument runs into the interface type assertion
runtime panic exactly when the dynamic type of its argument parameter is
not json.RawMessage; under that precondition it instead returns normally,
either a decoded value or a jsonError. -/
theorem unmarshalArgument_requires_rawMessage (a : GoVal) (t : TargetTy) :
    UnmarshalArgument a t = .assertionPanic ↔ a.isRawMessage = false := by
  cases a with
  | rawMessage j =>
    cases h : jsonUnmarshalAs t j <;>
      simp [UnmarshalArgument, GoVal.isRawMessage, h]
  | goString s => simp [UnmarshalArgument, GoVal.isRawMessage]
  | goFloat q => simp [UnmarshalArgument, GoVal.isRawMessage]
  | goInt n => simp [UnmarshalArgument, GoVal.isRawMessage]
  | goBool b => simp [UnmarshalArgument, GoVal.isRawMessage]

/-- Claim C10: Close may be called on a connection in any state; it always
leaves the connection not connected, and it always attempts to write a
Close message whose AllowReconnect flag is true and whose error text is
the one passed, regardless of the prior state and of the write's
outcome. -/
theorem close_disconnects_and_allows_reconnect (c : defaultHubConnection)
    (error : String) (writeOk : Bool) :
    IsConnected (Close c error writeOk) = false ∧
    (Close c error writeOk).attempted =
      c.attempted ++ [.close ⟨7, error, true⟩] := by
  simp [Close, writeToConn, IsConnected]

end SignalR
